import Mathlib

/-!
Verification of the rmx-cli session orchestrator against its specification.

The definitions below are a shallow embedding of the Rust sources:
  * `src/rmux/mod.rs`   — the layout engine (`generate_layout_string`),
    `sanitize_path`, `delete_config`;
  * `src/app/config.rs` — the `round` helper of the flex reducer;
  * `src/driver/zellij/mux.rs` — the zellij backend stubs.

Rust `usize` values are modelled as `Nat`.  Where the Rust code would
panic (integer underflow in `-`, division by zero in `/`, or a `todo!()`
stub) the embedding makes the panic explicit instead of silently
truncating: arithmetic panics become `Except.error` values carrying a
panic message, and `todo!()` becomes a dedicated `panic` constructor.
Interaction with the external tmux process is modelled by threading a
`TmuxState` that records the issued commands and draws pane ids from an
external oracle (tmux chooses the ids, so they are an input).
-/

namespace Rmx

/-- `FlexDirection` from `src/app/config.rs` (`Row` is the serde default). -/
inductive FlexDirection where
  | Row
  | Column
deriving DecidableEq

/-- The recursive `Pane` record of the rmux configuration
(`src/rmux/mod.rs` uses `flex: Option<usize>`, `flex_direction:
Option<FlexDirection>`, `path: Option<String>`, `commands: Vec<String>`,
`panes: Option<Vec<Pane>>`; `style` and `env` never reach the layout
engine and are omitted). -/
inductive Pane where
  | mk (flexDirection : Option FlexDirection) (flex : Option Nat)
       (path : Option String) (commands : List String)
       (panes : Option (List Pane))

/-- Accessor for the `flex` field. -/
def Pane.flex : Pane → Option Nat
  | .mk _ f _ _ _ => f

/-- Accessor for the `flex_direction` field. -/
def Pane.flexDirection : Pane → Option FlexDirection
  | .mk d _ _ _ _ => d

/-- Accessor for the `path` field. -/
def Pane.path : Pane → Option String
  | .mk _ _ p _ _ => p

/-- Accessor for the `commands` field. -/
def Pane.commands : Pane → List String
  | .mk _ _ _ c _ => c

/-- Accessor for the `panes` field. -/
def Pane.panes : Pane → Option (List Pane)
  | .mk _ _ _ _ ps => ps

/-- A leaf pane carrying only a flex weight. -/
def leafPane (flex : Nat) : Pane := Pane.mk none (some flex) none [] none

/-- A leaf pane with an explicit `flex: 0`. -/
def zeroFlexPane : Pane := Pane.mk none (some 0) none [] none

def slashStr : String := "/"
def tildeStr : String := "~"
def dotStr : String := "."
def pctStr : String := "%"
def emptyStr : String := ""
def tiledStr : String := "tiled"
def yStr : String := "y"
def commaStr : String := ","

/-- `str::starts_with` on strings, as a prefix test on the character
data (equivalent to the byte-level test for the whole-character
patterns used here). -/
def startsWithStr (s pre : String) : Bool := pre.data.isPrefixOf s.data

/-- `sanitize_path` (src/rmux/mod.rs lines 363-376): resolve a pane path
against the enclosing window path. -/
def sanitizePath (path : Option String) (windowPath : String) : String :=
  match path with
  | some p =>
    if startsWithStr p slashStr || startsWithStr p tildeStr then p
    else if p = dotStr then windowPath
    else windowPath ++ slashStr ++ p
  | none => windowPath

/-- ASCII whitespace, the characters `str::trim` strips in the inputs
considered here. -/
def isWs (c : Char) : Bool := c = ' ' || c = '\t' || c = '\n' || c = '\r'

/-- `str::trim`: drop whitespace from both ends of the character data. -/
def trimStr (s : String) : String :=
  String.mk (((s.data.dropWhile isWs).reverse.dropWhile isWs).reverse)

/-- `round` (src/app/config.rs lines 221-229): the FlexReducer's rounding
of an extent to a multiple of `base = 3`.  `base / 2` is integer division. -/
def round (number : Nat) : Nat :=
  let base := 3
  let remainder := number % base
  if remainder ≥ base / 2 then number + base - remainder else number - remainder

/-- `gcd` (src/app/config.rs lines 205-211). -/
def gcd (a b : Nat) : Nat :=
  if h : b = 0 then a else gcd b (a % b)
termination_by b
decreasing_by exact Nat.mod_lt _ (Nat.pos_of_ne_zero h)

/-- `gcd_vec` (src/app/config.rs lines 213-218). -/
def gcdVec (numbers : List Nat) : Nat :=
  if numbers.isEmpty || numbers.all (fun x => x = 0) then 1
  else numbers.foldl (fun acc x => gcd acc x) 0

/-- One external command issued through the `Tmux` client during
`generate_layout_string` (`split_window`, `get_current_pane`,
`select_layout`, `register_commands`). -/
inductive TmuxCmd where
  | splitWindow (windowId path : String)
  | currentPane (windowId : String)
  | selectLayout (windowId layout : String)
  | registerCmds (paneId : String) (commands : List String)
deriving DecidableEq

/-- The observable side of the tmux interaction: `ids` is the external
oracle choosing the numeric pane id answered by the k-th id-returning
call (tmux, not the engine, picks pane ids), `queries` counts those
calls and `log` records every issued command in order. -/
structure TmuxState where
  ids : Nat → Nat
  queries : Nat
  log : List TmuxCmd

/-- `Tmux::split_window`: returns the `%`-prefixed pane id printed by
`tmux split-window -P -F "#{pane_id}"`. -/
def splitWindow (windowId path : String) (st : TmuxState) : String × TmuxState :=
  (pctStr ++ toString (st.ids st.queries),
   { st with queries := st.queries + 1,
             log := st.log ++ [TmuxCmd.splitWindow windowId path] })

/-- `Tmux::get_current_pane`: queries the current pane id of the window. -/
def getCurrentPane (windowId : String) (st : TmuxState) : String × TmuxState :=
  (pctStr ++ toString (st.ids st.queries),
   { st with queries := st.queries + 1,
             log := st.log ++ [TmuxCmd.currentPane windowId] })

/-- `Tmux::select_layout`. -/
def selectLayout (windowId layout : String) (st : TmuxState) : TmuxState :=
  { st with log := st.log ++ [TmuxCmd.selectLayout windowId layout] }

/-- `Tmux::register_commands`: queue the pane's commands for the final
flush. -/
def registerCommands (paneId : String) (commands : List String) (st : TmuxState) : TmuxState :=
  { st with log := st.log ++ [TmuxCmd.registerCmds paneId commands] }

/-- `pane.flex.unwrap_or(1)` (src/rmux/mod.rs lines 216 and 226). -/
def flexOf (p : Pane) : Nat := p.flex.getD 1

/-- `total_flex` (src/rmux/mod.rs line 216): sum of the children's flex
values. -/
def totalFlex (panes : List Pane) : Nat := (panes.map flexOf).sum

def wUnderflowMsg : String := "Width underflow detected"
def hUnderflowMsg : String := "Height underflow detected"
def subPanicMsg : String := "panic: attempt to subtract with overflow"
def divPanicMsg : String := "panic: attempt to divide by zero"

/-- The divider increment after each child (src/rmux/mod.rs lines
263-266): `if depth > 0 || index > 0 { dividers += 1 }`. -/
def nextDividers (dividers depth index : Nat) : Nat :=
  if 0 < depth ∨ 0 < index then dividers + 1 else dividers

/-- The per-child geometry of the loop body (src/rmux/mod.rs lines
228-261): given the container's extents, the child's flex, whether it is
the last child (`index == panes.len() - 1`), the absolute cursor and the
divider count, produce `(pane_width, pane_height, next_x, next_y)`.
Rust's `usize` subtraction and division panic on underflow and on a zero
divisor; those panics are surfaced as explicit errors instead of being
truncated away. -/
def paneDims (direction : Option FlexDirection) (width height flex totalFlex : Nat)
    (isLast : Bool) (currentX currentY dividers depth index : Nat) :
    Except String (Nat × Nat × Nat × Nat) :=
  match direction with
  | some FlexDirection.Column =>
    if isLast then
      if currentX > width then Except.error wUnderflowMsg
      else
        let w := width - currentX
        Except.ok (w, height, currentX + w + 1, currentY)
    else if totalFlex = 0 then Except.error divPanicMsg
    else if 0 < depth ∨ 0 < index then
      if width * flex / totalFlex < dividers then Except.error subPanicMsg
      else
        let w := width * flex / totalFlex - dividers
        Except.ok (w, height, currentX + w + 1, currentY)
    else
      let w := width * flex / totalFlex
      Except.ok (w, height, currentX + w + 1, currentY)
  | _ =>
    if isLast then
      if currentY > height then Except.error hUnderflowMsg
      else
        let h := height - currentY
        Except.ok (width, h, currentX, currentY + h + 1)
    else if totalFlex = 0 then Except.error divPanicMsg
    else if 0 < depth ∨ 0 < index then
      if height * flex / totalFlex < dividers then Except.error subPanicMsg
      else
        let h := height * flex / totalFlex - dividers
        Except.ok (width, h, currentX, currentY + h + 1)
    else
      let h := height * flex / totalFlex
      Except.ok (width, h, currentX, currentY + h + 1)

def pctChar : Char := '%'

/-- `s.replace("%", "")` applied to a pane id: since the pattern is the
single character `%`, replacing it by the empty string is exactly
filtering `%` out of the character data. -/
def stripPct (s : String) : String :=
  String.mk (s.data.filter (fun c => c ≠ pctChar))

/-- The leaf serialization (src/rmux/mod.rs lines 294-301):
`"{w}x{h},{x},{y},{pane_id without %}"`. -/
def leafString (w h x y : Nat) (paneId : String) : String :=
  toString w ++ "x" ++ toString h ++ commaStr ++ toString x ++ commaStr ++
    toString y ++ commaStr ++ stripPct paneId

/-- The `"{w}x{h},0,0"` prefix every emitted fragment starts with; note
the hard-coded `0,0` in the source (src/rmux/mod.rs lines 310-327). -/
def dimPrefix (w h : Nat) : String :=
  toString w ++ "x" ++ toString h ++ ",0,0"

/-- The final assembly of a container fragment (src/rmux/mod.rs lines
310-327): more than one child is wrapped in braces (column) or brackets
(row) after a hard-coded `"{w}x{h},0,0"` header; otherwise the bare
header is returned. -/
def joinPaneStrings (width height : Nat) (direction : Option FlexDirection)
    (strs : List String) : String :=
  if strs.length > 1 then
    match direction with
    | some FlexDirection.Column =>
      dimPrefix width height ++ "\x7b" ++ String.intercalate commaStr strs ++ "\x7d"
    | _ =>
      dimPrefix width height ++ "[" ++ String.intercalate commaStr strs ++ "]"
  else dimPrefix width height

/-- The `for (index, pane) in panes.iter().enumerate()` loop of
`generate_layout_string` (src/rmux/mod.rs lines 225-308), with the
recursive call for sub-panes (lines 280-292) inlined: a sub-container is
laid out by running the loop on its children with a fresh accumulator
and joining the fragments (which is exactly the body of
`generate_layout_string`).  Arguments after the fixed window data are
the remaining panes, `index`, `current_x`, `current_y`, `dividers`, the
accumulated fragment strings and the tmux state. -/
def layoutLoop (windowId windowPath : String) (width height : Nat)
    (direction : Option FlexDirection) (totalFlexV depth : Nat) :
    List Pane → Nat → Nat → Nat → Nat → List String → TmuxState →
    Except String (List String × TmuxState)
  | [], _, _, _, _, acc, st => Except.ok (acc, st)
  | Pane.mk fd fl pa cmds ps :: rest, index, currentX, currentY, dividers, acc, st =>
    match paneDims direction width height (fl.getD 1) totalFlexV rest.isEmpty
        currentX currentY dividers depth index with
    | Except.error e => Except.error e
    | Except.ok (paneW, paneH, nextX, nextY) =>
      match (if 0 < index then splitWindow windowId (sanitizePath pa windowPath) st
             else getCurrentPane windowId st) with
      | (paneId, st1) =>
        match ps with
        | some subPanes =>
          match layoutLoop windowId windowPath paneW paneH fd
              (totalFlex subPanes) (depth + 1) subPanes 0 currentX currentY 0 []
              (selectLayout windowId tiledStr st1) with
          | Except.error e => Except.error e
          | Except.ok (strs, st3) =>
            layoutLoop windowId windowPath width height direction totalFlexV depth
              rest (index + 1) nextX nextY (nextDividers dividers depth index)
              (acc ++ [joinPaneStrings paneW paneH fd strs])
              (registerCommands paneId cmds st3)
        | none =>
          layoutLoop windowId windowPath width height direction totalFlexV depth
            rest (index + 1) nextX nextY (nextDividers dividers depth index)
            (acc ++ [leafString paneW paneH currentX currentY paneId])
            (registerCommands paneId cmds (selectLayout windowId tiledStr st1))

/-- `generate_layout_string` (src/rmux/mod.rs lines 203-328): compute
the container's flex sum, run the loop over its children and assemble
the fragment. -/
def generateLayoutString (windowId windowPath : String) (panes : List Pane)
    (width height : Nat) (direction : Option FlexDirection)
    (startX startY : Nat) (st : TmuxState) (depth : Nat) :
    Except String (String × TmuxState) :=
  match layoutLoop windowId windowPath width height direction (totalFlex panes) depth
      panes 0 startX startY 0 [] st with
  | Except.error e => Except.error e
  | Except.ok (strs, st2) => Except.ok (joinPaneStrings width height direction strs, st2)

/-- The geometry component of the loop (src/rmux/mod.rs lines 225-266)
in isolation: the same `paneDims` / `nextDividers` steps as
`layoutLoop`, with the tmux effects and string assembly stripped,
returning each child's `(width, height, x, y)`. -/
def geomListAux (direction : Option FlexDirection) (width height totalFlexV depth : Nat) :
    List Pane → Nat → Nat → Nat → Nat →
    Except String (List (Nat × Nat × Nat × Nat))
  | [], _, _, _, _ => Except.ok []
  | p :: rest, index, currentX, currentY, dividers =>
    match paneDims direction width height (flexOf p) totalFlexV rest.isEmpty
        currentX currentY dividers depth index with
    | Except.error e => Except.error e
    | Except.ok (paneW, paneH, nextX, nextY) =>
      match geomListAux direction width height totalFlexV depth rest (index + 1)
          nextX nextY (nextDividers dividers depth index) with
      | Except.error e => Except.error e
      | Except.ok geos => Except.ok ((paneW, paneH, currentX, currentY) :: geos)

/-- The per-container geometry, started the way `generate_layout_string`
starts its loop (`index = 0`, cursor at the container's origin,
`dividers = 0`). -/
def geomList (direction : Option FlexDirection) (width height totalFlexV depth : Nat)
    (panes : List Pane) (startX startY : Nat) :
    Except String (List (Nat × Nat × Nat × Nat)) :=
  geomListAux direction width height totalFlexV depth panes 0 startX startY 0

/-- Projection on the partitioned axis: a `Column` container partitions
the width (first component), every other direction partitions the
height (second component) — mirroring the `match direction` split in
`generate_layout_string`. -/
def partOf (direction : Option FlexDirection) (a b : Nat) : Nat :=
  match direction with
  | some FlexDirection.Column => a
  | _ => b

/-- Closed form of the `dividers` accumulator entering iteration
`index`: the number of previous children satisfying
`depth > 0 || index > 0`, i.e. `index` when the container is nested and
`index - 1` (truncated) at the root. -/
def dividersBefore (depth index : Nat) : Nat :=
  if 0 < depth then index else index - 1

/-- A filesystem effect of the config CRUD operations. -/
inductive FsAction where
  | removeFile (path : String)
deriving DecidableEq

/-- `"{config_path}/{name}.yaml"`. -/
def yamlPath (configPath name : String) : String :=
  configPath ++ slashStr ++ name ++ ".yaml"

/-- `delete_config` (src/rmux/mod.rs lines 87-99), with the filesystem
modelled by the list of attempted removal actions and stdin by the line
`read_line` produced: without `force`, the file is removed only when
the trimmed input is exactly `"y"`; otherwise the function prints
"Aborting." and returns `Ok(())` without touching the filesystem. -/
def deleteConfig (configPath name : String) (force : Bool) (stdinLine : String) :
    Except String (List FsAction) :=
  if !force then
    if trimStr stdinLine ≠ yStr then Except.ok []
    else Except.ok [FsAction.removeFile (yamlPath configPath name)]
  else Except.ok [FsAction.removeFile (yamlPath configPath name)]

/-- The error kinds a zellij multiplexer call can surface with. -/
inductive ZError where
  | notImplemented
  | other (msg : String)
deriving DecidableEq

/-- Outcome of a zellij backend call: a normal return, an error value
handed to the caller, or a Rust panic (which is what `todo!()` raises). -/
inductive ZResult (α : Type) where
  | ok (value : α)
  | err (e : ZError)
  | panic (msg : String)
deriving DecidableEq

/-- Carrier for the `Session` value `get_session` would return; its
fields are irrelevant to the claims about the zellij stubs. -/
structure ZSession where
  name : String
deriving DecidableEq

/-- The message `todo!()` panics with. -/
def notYetImplementedMsg : String := "not yet implemented"

/-- `Multiplexer::stop` for `Zellij` (src/driver/zellij/mux.rs lines
61-63): the body is `todo!()`. -/
def zellijStop (_name : Option String) (_skipCmds _stopAll : Bool) : ZResult Unit :=
  ZResult.panic notYetImplementedMsg

/-- `Multiplexer::list_sessions` for `Zellij` (src/driver/zellij/mux.rs
lines 65-67): the body is `todo!()`. -/
def zellijListSessions : ZResult (List String) :=
  ZResult.panic notYetImplementedMsg

/-- `Multiplexer::get_session` for `Zellij` (src/driver/zellij/mux.rs
lines 81-83): the body is `todo!()`. -/
def zellijGetSession : ZResult ZSession :=
  ZResult.panic notYetImplementedMsg

/-- A tmux state with an empty log whose oracle hands out pane ids
`start`, `start+1`, `start+2`, … in creation order. -/
def mkState (start : Nat) : TmuxState :=
  { ids := fun k => k + start, queries := 0, log := [] }

/-- The S4 window: three leaves with flex 1:2:1. -/
def s4Panes : List Pane := [leafPane 1, leafPane 2, leafPane 1]

/-- A single leaf pane with one startup command. -/
def c3Pane : Pane := Pane.mk none (some 1) none ["clear"] none

/-- A row sub-container holding two equal leaves. -/
def nestedRowPane : Pane :=
  Pane.mk (some FlexDirection.Row) (some 1) none [] (some [leafPane 1, leafPane 1])

/-- A column sub-container holding two equal leaves. -/
def nestedColPane : Pane :=
  Pane.mk (some FlexDirection.Column) (some 1) none [] (some [leafPane 1, leafPane 1])

/-- A column window whose second (non-first) child is itself a
multi-child row container. -/
def c4Panes : List Pane := [leafPane 1, nestedRowPane]

/-- A column window whose second child is itself a multi-child column
container. -/
def c5Panes : List Pane := [leafPane 1, nestedColPane]

/-- A leaf pane with no flex field at all. -/
def noFlexPane : Pane := Pane.mk none none none [] none

/-! ## Theorems -/

/-- `dividersBefore` is 0 at the first child. -/
theorem dividersBefore_zero (depth : Nat) : dividersBefore depth 0 = 0 := by
  unfold dividersBefore
  split <;> rfl

/-- Stepping the `dividers` accumulator from its closed form at `index`
yields the closed form at `index + 1`. -/
theorem nextDividers_dividersBefore (depth index : Nat) :
    nextDividers (dividersBefore depth index) depth index = dividersBefore depth (index + 1) := by
  simp only [nextDividers, dividersBefore]
  split_ifs <;> omega

/-- A successful non-last `paneDims` step: the partitioned-axis share is
the flex-proportional quotient, reduced by the running divider count
exactly when `depth > 0 || index > 0`. -/
theorem paneDims_nonlast_share {direction : Option FlexDirection}
    {w h f T cx cy d depth index pw ph nx ny : Nat}
    (hok : paneDims direction w h f T false cx cy d depth index
      = Except.ok (pw, ph, nx, ny)) :
    partOf direction pw ph
      = if 0 < depth ∨ 0 < index then partOf direction w h * f / T - d
        else partOf direction w h * f / T := by
  rcases direction with _ | dir
  · simp only [paneDims, Bool.false_eq_true, if_false] at hok
    split_ifs at hok with h0 h1 h2 <;> simp_all [partOf]
  · cases dir
    · simp only [paneDims, Bool.false_eq_true, if_false] at hok
      split_ifs at hok with h0 h1 h2 <;> simp_all [partOf]
    · simp only [paneDims, Bool.false_eq_true, if_false] at hok
      split_ifs at hok with h0 h1 h2 <;> simp_all [partOf]

/-- A successful non-last `paneDims` step advances the partitioned-axis
cursor by the share plus one divider cell, and keeps the cross-axis
cursor. -/
theorem paneDims_nonlast_next {direction : Option FlexDirection}
    {w h f T cx cy d depth index pw ph nx ny : Nat}
    (hok : paneDims direction w h f T false cx cy d depth index
      = Except.ok (pw, ph, nx, ny)) :
    partOf direction nx ny = partOf direction cx cy + partOf direction pw ph + 1 := by
  rcases direction with _ | dir
  · simp only [paneDims, Bool.false_eq_true, if_false] at hok
    split_ifs at hok with h0 h1 h2 <;> simp_all [partOf] <;> omega
  · cases dir
    · simp only [paneDims, Bool.false_eq_true, if_false] at hok
      split_ifs at hok with h0 h1 h2 <;> simp_all [partOf] <;> omega
    · simp only [paneDims, Bool.false_eq_true, if_false] at hok
      split_ifs at hok with h0 h1 h2 <;> simp_all [partOf] <;> omega

/-- A successful last `paneDims` step: the child receives whatever is
left of the container extent beyond the absolute cursor, which the
source guards to be non-negative. -/
theorem paneDims_last_ok {direction : Option FlexDirection}
    {w h f T cx cy d depth index pw ph nx ny : Nat}
    (hok : paneDims direction w h f T true cx cy d depth index
      = Except.ok (pw, ph, nx, ny)) :
    partOf direction pw ph = partOf direction w h - partOf direction cx cy ∧
    partOf direction cx cy ≤ partOf direction w h := by
  rcases direction with _ | dir
  · simp only [paneDims, if_true] at hok
    split_ifs at hok with h0 <;> simp_all [partOf]
  · cases dir
    · simp only [paneDims, if_true] at hok
      split_ifs at hok with h0 <;> simp_all [partOf]
    · simp only [paneDims, if_true] at hok
      split_ifs at hok with h0 <;> simp_all [partOf]

/-- Closed form of the non-last shares along a geometry run: when the
`dividers` accumulator enters iteration `index` at its closed form
`dividersBefore depth index`, every non-last child `i` of the remaining
list receives the flex-proportional quotient reduced by
`dividersBefore depth (index + i)`. -/
theorem geomListAux_share (direction : Option FlexDirection)
    (width height totalFlexV depth : Nat) :
    ∀ (panes : List Pane) (index cx cy dividers : Nat)
      (geo : List (Nat × Nat × Nat × Nat)),
      dividers = dividersBefore depth index →
      geomListAux direction width height totalFlexV depth panes index cx cy dividers
        = Except.ok geo →
      ∀ i, i + 1 < panes.length →
        ∀ p, panes[i]? = some p →
          ∀ g : Nat × Nat × Nat × Nat, geo[i]? = some g →
            partOf direction g.1 g.2.1
              = partOf direction width height * flexOf p / totalFlexV
                  - dividersBefore depth (index + i) := by
  intro panes
  induction panes with
  | nil =>
    intro index cx cy dividers geo _ _ i hi
    simp at hi
  | cons p0 rest ih =>
    intro index cx cy dividers geo hdiv hok i hi p hp g hg
    subst hdiv
    simp only [geomListAux, nextDividers_dividersBefore] at hok
    split at hok
    · simp at hok
    · rename_i q pw ph nx ny hpd
      split at hok
      · simp at hok
      · rename_i r geos hrec
        simp only [Except.ok.injEq] at hok
        subst hok
        cases i with
        | zero =>
          simp only [List.getElem?_cons_zero, Option.some.injEq] at hp hg
          subst hp
          subst hg
          have hre : rest.isEmpty = false := by
            cases rest
            · simp at hi
            · rfl
          rw [hre] at hpd
          have hsh := paneDims_nonlast_share hpd
          simp only at hsh
          rw [hsh]
          split_ifs with hc
          · simp
          · have hdz : depth = 0 ∧ index = 0 := by omega
            rw [hdz.1, hdz.2]
            simp [dividersBefore]
        | succ j =>
          simp only [List.getElem?_cons_succ] at hp hg
          have hj : j + 1 < rest.length := by
            simp only [List.length_cons] at hi
            omega
          have := ih (index + 1) nx ny (dividersBefore depth (index + 1)) geos rfl
            hrec j hj p hp g hg
          rw [this]
          have harith : index + 1 + j = index + (j + 1) := by omega
          rw [harith]

/-- The partitioned extents of a successful geometry run fill the
container exactly: their sum plus the `k − 1` divider cells plus the
absolute cursor the run started at equals the container extent. -/
theorem geomListAux_sum (direction : Option FlexDirection)
    (width height totalFlexV depth : Nat) :
    ∀ (panes : List Pane) (index cx cy dividers : Nat)
      (geo : List (Nat × Nat × Nat × Nat)),
      panes ≠ [] →
      geomListAux direction width height totalFlexV depth panes index cx cy dividers
        = Except.ok geo →
      (geo.map (fun g => partOf direction g.1 g.2.1)).sum + (panes.length - 1)
          + partOf direction cx cy
        = partOf direction width height := by
  intro panes
  induction panes with
  | nil => intro _ _ _ _ _ hne; exact absurd rfl hne
  | cons p0 rest ih =>
    intro index cx cy dividers geo _ hok
    simp only [geomListAux] at hok
    split at hok
    · simp at hok
    · rename_i q pw ph nx ny hpd
      split at hok
      · simp at hok
      · rename_i r geos hrec
        simp only [Except.ok.injEq] at hok
        subst hok
        cases rest with
        | nil =>
          have hlast := paneDims_last_ok (by simpa using hpd)
          cases hrec
          simp only [List.map_cons, List.map_nil, List.sum_cons, List.sum_nil,
            List.length_cons, List.length_nil]
          omega
        | cons r1 r2 =>
          have hnext := paneDims_nonlast_next (by simpa using hpd)
          have hrest := ih (index + 1) nx ny (nextDividers dividers depth index)
            geos (by simp) hrec
          simp only [List.map_cons, List.sum_cons, List.length_cons] at hrest ⊢
          omega

/-- C6 (code_bug evidence): the FlexReducer rounding is not
round-to-nearest-multiple-of-3.  Because `base / 2 = 1` in integer
arithmetic, any remainder ≥ 1 rounds up: `round 4 = 6` and
`round 1 = 3`, although the nearest multiples are 3 and 0
(`4 - 3 < 6 - 4`), contradicting the function's own comment
"round a number to the nearest multiple of base". -/
theorem c6_round_rounds_up :
    round 4 = 6 ∧ round 1 = 3 ∧ round 2 = 3 ∧ round 3 = 3 ∧
    round 5 = 6 ∧ round 6 = 6 ∧ 4 - 3 < 6 - 4 := by
  decide

/-- C7: `sanitize_path` leaves absolute and `~`-prefixed paths
unchanged, maps `.` and an absent path to the window path, and joins
every other path onto the window path with a `/`. -/
theorem c7_sanitize_path (p windowPath : String) :
    sanitizePath none windowPath = windowPath ∧
    ((startsWithStr p slashStr = true ∨ startsWithStr p tildeStr = true) →
      sanitizePath (some p) windowPath = p) ∧
    (p = dotStr → sanitizePath (some p) windowPath = windowPath) ∧
    (startsWithStr p slashStr = false → startsWithStr p tildeStr = false →
      p ≠ dotStr → sanitizePath (some p) windowPath = windowPath ++ slashStr ++ p) := by
  refine ⟨rfl, ?_, ?_, ?_⟩
  · rintro (h | h) <;> simp [sanitizePath, h]
  · intro h
    subst h
    have h1 : (startsWithStr dotStr slashStr || startsWithStr dotStr tildeStr) = false := rfl
    simp [sanitizePath, h1]
  · intro h1 h2 h3
    simp [sanitizePath, h1, h2, h3]

/-- Witness for C7 at concrete inputs: an absolute path survives, a
relative path is joined onto the window path. -/
theorem c7_sanitize_path_witness :
    sanitizePath (some ("/abs")) ("base") = "/abs" ∧
    sanitizePath (some ("sub")) ("base") = "base" ++ slashStr ++ "sub" :=
  ⟨(c7_sanitize_path ("/abs") ("base")).2.1 (Or.inl (by decide)),
   (c7_sanitize_path ("sub") ("base")).2.2.2 (by decide) (by decide) (by decide)⟩

/-- C9 (counterexample): the zellij `stop`, `list_sessions` and
`get_session` are `todo!()` stubs — each call panics with
"not yet implemented" instead of returning a `NotImplemented` error
value. -/
theorem c9_counterexample :
    zellijStop none false false = ZResult.panic notYetImplementedMsg ∧
    zellijStop none false false ≠ ZResult.err ZError.notImplemented ∧
    zellijListSessions = ZResult.panic notYetImplementedMsg ∧
    zellijListSessions ≠ ZResult.err ZError.notImplemented ∧
    zellijGetSession = ZResult.panic notYetImplementedMsg ∧
    zellijGetSession ≠ ZResult.err ZError.notImplemented := by
  decide

/-- C9 (amended): every call to the zellij `stop`, `list_sessions` or
`get_session` panics via `todo!()` with "not yet implemented"; none of
them returns normally (so none silently succeeds). -/
theorem c9_zellij_stubs_panic (name : Option String) (skipCmds stopAll : Bool) :
    zellijStop name skipCmds stopAll = ZResult.panic notYetImplementedMsg ∧
    zellijListSessions = ZResult.panic notYetImplementedMsg ∧
    zellijGetSession = ZResult.panic notYetImplementedMsg ∧
    (∀ u : Unit, zellijStop name skipCmds stopAll ≠ ZResult.ok u) ∧
    (∀ ls, zellijListSessions ≠ ZResult.ok ls) ∧
    (∀ s, zellijGetSession ≠ ZResult.ok s) := by
  refine ⟨rfl, rfl, rfl, ?_, ?_, ?_⟩ <;>
    intro x h <;> simp [zellijStop, zellijListSessions, zellijGetSession] at h

/-- C10: without `force`, `delete_config` attempts the removal exactly
when the trimmed stdin line is `"y"`, and otherwise returns `Ok` having
touched nothing; with `force` it removes unconditionally. -/
theorem c10_delete_config (configPath name line : String) :
    (deleteConfig configPath name false line = Except.ok [] ↔ trimStr line ≠ yStr) ∧
    (trimStr line = yStr →
      deleteConfig configPath name false line
        = Except.ok [FsAction.removeFile (yamlPath configPath name)]) ∧
    deleteConfig configPath name true line
      = Except.ok [FsAction.removeFile (yamlPath configPath name)] := by
  refine ⟨?_, ?_, rfl⟩
  · by_cases h : trimStr line = yStr <;> simp [deleteConfig, h]
  · intro h
    simp [deleteConfig, h]

/-- Witness for C10: a `"y\n"` confirmation leads to the removal of the
named file. -/
theorem c10_delete_config_witness :
    deleteConfig ("cfg") ("demo") false ("y\n")
      = Except.ok [FsAction.removeFile (yamlPath ("cfg") ("demo"))] :=
  (c10_delete_config ("cfg") ("demo") ("y\n")).2.1 (by decide)

/-- C1: on the S4 window — a column container with three leaves of flex
1:2:1 at 160×90 — the engine assigns widths 40, 80 and 38 and returns
exactly the body `160x90,0,0{40x90,0,0,5,80x90,41,0,6,38x90,122,0,7}`,
the leaf entries carrying the pane ids 5, 6, 7 the tmux oracle handed
out in creation order. -/
theorem c1_s4_column_layout (windowId windowPath : String) :
    (generateLayoutString windowId windowPath s4Panes 160 90 (some FlexDirection.Column)
        0 0 (mkState 5) 0).map Prod.fst
      = Except.ok ("160x90,0,0\x7b40x90,0,0,5,80x90,41,0,6,38x90,122,0,7\x7d") := by
  simp [generateLayoutString, layoutLoop, paneDims, nextDividers, totalFlex, flexOf,
    leafPane, Pane.flex, s4Panes, mkState, joinPaneStrings, dimPrefix, leafString,
    stripPct, sanitizePath, splitWindow, getCurrentPane, selectLayout, registerCommands,
    tiledStr, pctStr, emptyStr, commaStr, slashStr]
  rfl

/-- C2 (counterexample): in the S4 geometry the second child (not first,
not last, at root depth 0) receives `160·2/4 = 80`, not the
`160·2/4 − 1 = 79` the claim's "reduced by exactly 1" demands — the
code subtracts the `dividers` accumulator, which is still 0 there. -/
theorem c2_counterexample :
    geomList (some FlexDirection.Column) 160 90 (totalFlex s4Panes) 0 s4Panes 0 0
      = Except.ok [(40, 90, 0, 0), (80, 90, 41, 0), (38, 90, 122, 0)] ∧
    160 * 2 / 4 - 1 = 79 ∧ (79 : Nat) ≠ 80 :=
  ⟨rfl, by decide, by decide⟩

/-- C3 (counterexample): a window with exactly one leaf at 80×24 emits
the bare body `80x24,0,0` — the single-fragment collapse drops the pane
id — and not the claimed `80x24,0,0,1`; the log shows the id was taken
from the window's current pane (no `split-window`) and used only to
register the pane's commands. -/
theorem c3_counterexample :
    (generateLayoutString ("@1") ("p") [c3Pane] 80 24 none 0 0 (mkState 1) 0).map
        (fun r => (r.1, r.2.queries, r.2.log))
      = Except.ok ("80x24,0,0", 1,
          [TmuxCmd.currentPane ("@1"), TmuxCmd.selectLayout ("@1") tiledStr,
           TmuxCmd.registerCmds ("%1") ["clear"]]) ∧
    ("80x24,0,0" : String) ≠ "80x24,0,0,1" := by
  refine ⟨?_, by decide⟩
  simp [generateLayoutString, layoutLoop, paneDims, nextDividers, totalFlex, flexOf,
    c3Pane, Pane.flex, mkState, joinPaneStrings, dimPrefix, leafString,
    stripPct, sanitizePath, splitWindow, getCurrentPane, selectLayout, registerCommands,
    tiledStr, pctStr, emptyStr, commaStr, slashStr]
  rfl

/-- C4 (counterexample): a nested multi-child row container that is the
*second* child of a column window at 160×90 sits at origin (81,0), yet
its fragment is serialized as `79x90,0,0[…]` — the `0,0` is hard-coded —
instead of the claimed `79x90,81,0[…]`. -/
theorem c4_counterexample :
    (generateLayoutString ("@1") ("p") c4Panes 160 90 (some FlexDirection.Column)
        0 0 (mkState 1) 0).map Prod.fst
      = Except.ok ("160x90,0,0\x7b80x90,0,0,1,79x90,0,0[79x45,81,0,3,79x44,81,46,4]\x7d") ∧
    ("160x90,0,0\x7b80x90,0,0,1,79x90,0,0[79x45,81,0,3,79x44,81,46,4]\x7d" : String)
      ≠ "160x90,0,0\x7b80x90,0,0,1,79x90,81,0[79x45,81,0,3,79x44,81,46,4]\x7d" := by
  refine ⟨?_, by decide⟩
  simp [generateLayoutString, layoutLoop, paneDims, nextDividers, totalFlex, flexOf,
    c4Panes, nestedRowPane, leafPane, Pane.flex, mkState, joinPaneStrings, dimPrefix,
    leafString, stripPct, sanitizePath, splitWindow, getCurrentPane, selectLayout,
    registerCommands, tiledStr, pctStr, emptyStr, commaStr, slashStr]
  rfl

/-- C5 (counterexample): in a column window whose second child is itself
a column container of two flex-1 leaves at 160×90, the claim's formula
predicts a last sub-child of `79 − 39 − 1 = 39` (the shares fit the
container exactly), but the code compares against the *absolute*
accumulated origin (81 + 39 + 1 = 121 > 79) and aborts with the width
underflow error instead of emitting a layout. -/
theorem c5_counterexample :
    generateLayoutString ("@1") ("p") c5Panes 160 90 (some FlexDirection.Column)
        0 0 (mkState 1) 0
      = Except.error wUnderflowMsg ∧
    79 - 39 - 1 = 39 ∧ 39 + 1 + 39 ≤ 79 := by
  refine ⟨?_, by decide, by decide⟩
  simp [generateLayoutString, layoutLoop, paneDims, nextDividers, totalFlex, flexOf,
    c5Panes, nestedColPane, leafPane, Pane.flex, mkState, joinPaneStrings, dimPrefix,
    leafString, stripPct, sanitizePath, splitWindow, getCurrentPane, selectLayout,
    registerCommands, tiledStr, pctStr, emptyStr, commaStr, slashStr]

/-- C8 (counterexample): an explicit `flex: 0` is kept as 0 by
`flex.unwrap_or(1)`: it contributes 0 (not 1) to the container's flex
sum, and in a column of `[flex 0, flex 1, flex 1]` at width 100 the
zero-flex pane receives width 0 while its flex-1 sibling receives 50. -/
theorem c8_counterexample :
    totalFlex [zeroFlexPane, leafPane 1] = 1 ∧ (1 : Nat) ≠ 2 ∧
    geomList (some FlexDirection.Column) 100 50
        (totalFlex [zeroFlexPane, leafPane 1, leafPane 1]) 0
        [zeroFlexPane, leafPane 1, leafPane 1] 0 0
      = Except.ok [(0, 50, 0, 0), (50, 50, 1, 0), (48, 50, 52, 0)] ∧
    (0 : Nat) ≠ 50 :=
  ⟨rfl, by decide, rfl, by decide⟩

/-- C2 (amended): in a successful geometry run of a container with flex
sum `S = totalFlex panes`, every non-last child `i` receives
`⌊A · flex(cᵢ) / S⌋` reduced by the number of dividers already consumed
in that container — `i` when `depth > 0`, and `i − 1` (the first child
consuming none) at the root — not uniformly by 1. -/
theorem c2_amended_share (direction : Option FlexDirection)
    (width height depth : Nat) (panes : List Pane) (startX startY : Nat)
    (geo : List (Nat × Nat × Nat × Nat))
    (hok : geomList direction width height (totalFlex panes) depth panes startX startY
      = Except.ok geo)
    (i : Nat) (hi : i + 1 < panes.length)
    (p : Pane) (hp : panes[i]? = some p)
    (g : Nat × Nat × Nat × Nat) (hg : geo[i]? = some g) :
    partOf direction g.1 g.2.1
      = partOf direction width height * flexOf p / totalFlex panes
          - dividersBefore depth i := by
  have := geomListAux_share direction width height (totalFlex panes) depth panes
    0 startX startY 0 geo (dividersBefore_zero depth).symm hok i hi p hp g hg
  simpa using this

/-- Witness for C2 (amended) at the S4 geometry: the second child's
share is `160·2/4 − dividersBefore 0 1 = 80`. -/
theorem c2_amended_share_witness :
    partOf (some FlexDirection.Column) 80 90
      = partOf (some FlexDirection.Column) 160 90 * flexOf (leafPane 2)
          / totalFlex s4Panes - dividersBefore 0 1 := by
  have h := c2_amended_share (some FlexDirection.Column) 160 90 0 s4Panes 0 0
    [(40, 90, 0, 0), (80, 90, 41, 0), (38, 90, 122, 0)] rfl 1 (by decide)
    (leafPane 2) rfl (80, 90, 41, 0) rfl
  simpa using h

/-- C3 (amended): a window holding exactly one leaf pane at 80×24 —
whatever its flex, path, commands or direction — produces the bare body
`80x24,0,0` *without* the pane id (the single-fragment collapse), issues
no `split-window`, and obtains the sole pane id from the window's
current pane, using it only to register the pane's commands. -/
theorem c3_single_pane_collapse (windowId windowPath : String)
    (flex : Option Nat) (path : Option String) (cmds : List String)
    (direction : Option FlexDirection) (st : TmuxState) :
    (generateLayoutString windowId windowPath [Pane.mk none flex path cmds none]
        80 24 direction 0 0 st 0).map (fun r => (r.1, r.2.queries, r.2.log))
      = Except.ok ("80x24,0,0", st.queries + 1,
          st.log ++ [TmuxCmd.currentPane windowId,
                     TmuxCmd.selectLayout windowId tiledStr,
                     TmuxCmd.registerCmds (pctStr ++ toString (st.ids st.queries)) cmds]) := by
  rcases direction with _ | dir
  · simp [generateLayoutString, layoutLoop, paneDims, nextDividers, totalFlex, flexOf,
      Pane.flex, joinPaneStrings, dimPrefix, leafString, stripPct,
      splitWindow, getCurrentPane, selectLayout, registerCommands]
    rfl
  · cases dir <;>
    · simp [generateLayoutString, layoutLoop, paneDims, nextDividers, totalFlex, flexOf,
        Pane.flex, joinPaneStrings, dimPrefix, leafString, stripPct,
        splitWindow, getCurrentPane, selectLayout, registerCommands]
      rfl

/-- Every fragment `joinPaneStrings` assembles starts with the
hard-coded `"{w}x{h},0,0"` header. -/
theorem joinPaneStrings_prefix (width height : Nat) (direction : Option FlexDirection)
    (strs : List String) :
    ∃ t, joinPaneStrings width height direction strs = dimPrefix width height ++ t := by
  unfold joinPaneStrings
  split
  · rcases direction with _ | dir
    · exact ⟨"[" ++ String.intercalate commaStr strs ++ "]",
        by simp [String.append_assoc]⟩
    · cases dir
      · exact ⟨"[" ++ String.intercalate commaStr strs ++ "]",
          by simp [String.append_assoc]⟩
      · exact ⟨"\x7b" ++ String.intercalate commaStr strs ++ "\x7d",
          by simp [String.append_assoc]⟩
  · exact ⟨emptyStr, by simp [emptyStr, String.append_empty]⟩

/-- C4 (amended): every fragment `generate_layout_string` emits — for
containers with one or many children alike — begins with
`"{w}x{h},0,0"`: the `x` and `y` coordinates of a container are
hard-coded to `0,0` in the serialization, so a nested container is *not*
serialized with its true origin. -/
theorem c4_amended_prefix (windowId windowPath : String) (panes : List Pane)
    (width height : Nat) (direction : Option FlexDirection)
    (startX startY : Nat) (st : TmuxState) (depth : Nat)
    (s : String) (st2 : TmuxState)
    (hok : generateLayoutString windowId windowPath panes width height direction
      startX startY st depth = Except.ok (s, st2)) :
    ∃ t, s = dimPrefix width height ++ t := by
  unfold generateLayoutString at hok
  split at hok
  · simp at hok
  · rename_i r strs st3 hloop
    simp only [Except.ok.injEq, Prod.mk.injEq] at hok
    obtain ⟨hs, _⟩ := hok
    exact hs ▸ joinPaneStrings_prefix width height direction strs

/-- Witness for C4 (amended): the empty pane list yields the bare
header `5x7,0,0`. -/
theorem c4_amended_prefix_witness :
    ∃ t, ("5x7,0,0" : String) = dimPrefix 5 7 ++ t := by
  refine c4_amended_prefix ("w") ("p") [] 5 7 none 0 0 (mkState 1) 0
    ("5x7,0,0") (mkState 1) ?_
  simp [generateLayoutString, layoutLoop, joinPaneStrings, dimPrefix]
  rfl

/-- C5 (amended): (a) every successful geometry run fills the container
exactly: the partitioned extents plus the `k − 1` divider cells plus the
container's *absolute* partitioned-axis start coordinate sum to the
container extent — so the last child receives the extent minus the start
coordinate minus the previous shares minus the dividers, not merely
"extent minus previous shares minus dividers"; (b) an exactly-zero
remainder is not an error (width 2, two flex-1 leaves: shares 1 and 0);
(c) when the accumulated origin exceeds the extent the run aborts with
the width-underflow error (width 0, two flex-1 leaves). -/
theorem c5_amended_sum :
    (∀ (direction : Option FlexDirection) (width height totalFlexV depth : Nat)
       (panes : List Pane) (startX startY : Nat)
       (geo : List (Nat × Nat × Nat × Nat)),
      panes ≠ [] →
      geomList direction width height totalFlexV depth panes startX startY
        = Except.ok geo →
      (geo.map (fun g => partOf direction g.1 g.2.1)).sum + (panes.length - 1)
          + partOf direction startX startY
        = partOf direction width height) ∧
    geomList (some FlexDirection.Column) 2 5 (totalFlex [leafPane 1, leafPane 1]) 0
        [leafPane 1, leafPane 1] 0 0
      = Except.ok [(1, 5, 0, 0), (0, 5, 2, 0)] ∧
    geomList (some FlexDirection.Column) 0 5 (totalFlex [leafPane 1, leafPane 1]) 0
        [leafPane 1, leafPane 1] 0 0
      = Except.error wUnderflowMsg := by
  refine ⟨?_, rfl, rfl⟩
  intro direction width height totalFlexV depth panes startX startY geo hne hok
  exact geomListAux_sum direction width height totalFlexV depth panes
    0 startX startY 0 geo hne hok

/-- Witness for C5 (amended) at the S4 geometry: 40 + 80 + 38 plus two
dividers plus the zero start fill the 160-cell width. -/
theorem c5_amended_sum_witness :
    (([(40, 90, 0, 0), (80, 90, 41, 0), (38, 90, 122, 0)].map
        (fun g : Nat × Nat × Nat × Nat => partOf (some FlexDirection.Column) g.1 g.2.1)).sum
      + (s4Panes.length - 1) + partOf (some FlexDirection.Column) 0 0)
      = partOf (some FlexDirection.Column) 160 90 :=
  c5_amended_sum.1 (some FlexDirection.Column) 160 90 (totalFlex s4Panes) 0 s4Panes 0 0
    [(40, 90, 0, 0), (80, 90, 41, 0), (38, 90, 122, 0)] (by simp [s4Panes]) rfl

/-- C8 (amended): the engine's `flex.unwrap_or(1)` treats an *absent*
flex as 1, but keeps an explicit `flex: 0` as written: such a pane
contributes nothing to the container's flex sum, and a non-last
zero-flex child receives a zero share on the partitioned axis (the
effective weights are therefore not all positive). -/
theorem c8_amended_zero_flex (p q : Pane) (rest : List Pane)
    (w h totalFlexV cx cy : Nat) :
    (p.flex = some 0 → totalFlex (p :: rest) = totalFlex rest) ∧
    (q.flex = none → totalFlex (q :: rest) = 1 + totalFlex rest) ∧
    (0 < totalFlexV →
      paneDims (some FlexDirection.Column) w h 0 totalFlexV false cx cy 0 0 0
        = Except.ok (0, h, cx + 1, cy) ∧
      paneDims none w h 0 totalFlexV false cx cy 0 0 0
        = Except.ok (w, 0, cx, cy + 1)) := by
  refine ⟨?_, ?_, ?_⟩
  · intro hp
    simp [totalFlex, flexOf, hp]
  · intro hq
    simp [totalFlex, flexOf, hq]
  · intro hT
    constructor <;> simp [paneDims, Nat.pos_iff_ne_zero.mp hT]

/-- Witness for C8 (amended): a `flex: 0` pane adds nothing to the flex
sum, an absent flex adds one, and a zero-flex non-last column child gets
width 0. -/
theorem c8_amended_zero_flex_witness :
    totalFlex [zeroFlexPane, leafPane 1] = totalFlex [leafPane 1] ∧
    totalFlex [noFlexPane, leafPane 1] = 1 + totalFlex [leafPane 1] ∧
    paneDims (some FlexDirection.Column) 100 50 0 2 false 0 0 0 0 0
      = Except.ok (0, 50, 0 + 1, 0) :=
  ⟨(c8_amended_zero_flex zeroFlexPane noFlexPane [leafPane 1] 100 50 2 0 0).1 rfl,
   (c8_amended_zero_flex zeroFlexPane noFlexPane [leafPane 1] 100 50 2 0 0).2.1 rfl,
   ((c8_amended_zero_flex zeroFlexPane noFlexPane [leafPane 1] 100 50 2 0 0).2.2
      (by decide)).1⟩

end Rmx
